import Mathlib

/-!
# Verification of the SFTP node (node-red-ga-better-sftp)

Shallow embedding of the two source files of the repository:

* `src/transports/sftp/index.js` — the main variant: per-credentials
  busy-chain queue, `hadCache`-guarded teardown in a `finally` block,
  string-payload path override, size verification for `put`.
* `src/unnamed/part_000` — the secondary (legacy) variant: no queue,
  every fresh connection is cached, literal string payloads are uploaded
  as UTF-8 buffers with their byte length as the expected size.

The remote SFTP library (`ssh2-sftp-client`) and the local filesystem are
external capabilities; each remote call's outcome is supplied by an
oracle (`Remote`), and the local filesystem by a size map
(`String → Option Nat`, `some` = `fs.existsSync` true with that
`fs.statSync(..).size`).  Machine-level details (status display, logging)
are not modelled; everything else follows the JavaScript control flow
line by line, as noted in the doc comments.
-/

/-! ## POSIX path model (Node `path.posix`)

`path.posix.join` / `normalize` / `basename` re-implemented on `List Char`
following Node's `lib/path.js`:  `normalize` records whether the path is
absolute and whether it has a trailing separator, resolves `.`, `..` and
empty segments (`normalizeString`), and reassembles. -/

/-- Split a character list on `'/'`, keeping empty segments
(the behaviour of splitting a path string on the separator). -/
def splitChar : List Char → List (List Char)
  | [] => [[]]
  | c :: rest =>
    if c = '/' then [] :: splitChar rest
    else
      match splitChar rest with
      | h :: t => (c :: h) :: t
      | [] => [[c]]

/-- Effect of a `".."` segment on the segment stack: pop a real
segment; atop another `".."` (or an empty stack) keep it only when
`allowAbove` (i.e. the path is relative). -/
def dropDotDot (allowAbove : Bool) (acc : List (List Char)) : List (List Char) :=
  match acc with
  | top :: tl =>
    if top = ['.', '.'] then
      if allowAbove then ['.', '.'] :: top :: tl else top :: tl
    else tl
  | [] => if allowAbove then [['.', '.']] else []

/-- Node `normalizeString`: process the segments of a path with a stack,
dropping empty and `.` segments; `..` acts via `dropDotDot`.  `acc` is
the stack (reversed); the result is in order. -/
def normStack (allowAbove : Bool) (acc : List (List Char)) :
    List (List Char) → List (List Char)
  | [] => acc.reverse
  | seg :: rest =>
    if seg = [] ∨ seg = ['.'] then normStack allowAbove acc rest
    else if seg = ['.', '.'] then normStack allowAbove (dropDotDot allowAbove acc) rest
    else normStack allowAbove (seg :: acc) rest

/-- Join segments with a single `'/'` between them. -/
def interJ : List (List Char) → List Char
  | [] => []
  | [s] => s
  | s :: rest => s ++ '/' :: interJ rest

/-- Does the character list start with `'/'`? -/
def startsSlash : List Char → Bool
  | [] => false
  | c :: _ => c == '/'

/-- Does the character list start with `"//"`? -/
def startsDSlash : List Char → Bool
  | c :: d :: _ => c == '/' && d == '/'
  | _ => false

/-- The normalized segment list of a path, with the trailing separator
re-attached when the input had one. -/
def pnormCore (p : List Char) : List Char :=
  if p.getLast? = some '/' then
    interJ (normStack (!startsSlash p) [] (splitChar p)) ++ ['/']
  else interJ (normStack (!startsSlash p) [] (splitChar p))

/-- Node `path.posix.normalize` on character lists: resolve the
segments; when nothing remains the result is `"/"`, `"./"` or `"."`;
otherwise re-attach the leading `'/'` of an absolute input. -/
def pnorm (p : List Char) : List Char :=
  if p = [] then ['.']
  else if interJ (normStack (!startsSlash p) [] (splitChar p)) = [] then
    if startsSlash p then ['/']
    else if p.getLast? = some '/' then ['.', '/'] else ['.']
  else if startsSlash p then '/' :: pnormCore p
  else pnormCore p

/-- Final step of `path.posix.join`: `"."` when nothing was joined,
otherwise normalize. -/
def pjoinAux (j : List Char) : List Char :=
  if j = [] then ['.'] else pnorm j

/-- Node `path.posix.join` restricted to two arguments (the only form the
sources use): concatenate the non-empty arguments with `'/'` and
normalize; with no non-empty argument the result is `"."`. -/
def pjoin (a b : List Char) : List Char :=
  pjoinAux (if a = [] then b else if b = [] then a else a ++ '/' :: b)

/-- Node `path.posix.basename` (no extension argument): drop trailing
separators, then take the final segment. -/
def pbase (l : List Char) : List Char :=
  ((l.reverse.dropWhile (· = '/')).takeWhile (· ≠ '/')).reverse

/-- String wrapper for `pjoin`. -/
def posixJoin (a b : String) : String := String.mk (pjoin a.data b.data)

/-- String wrapper for `pbase`. -/
def basenameStr (s : String) : String := String.mk (pbase s.data)

/-- `rFile.startsWith('/') ? rFile.slice(1) : rFile` on characters:
strip exactly one leading `'/'` when present
(`src/transports/sftp/index.js` line 153, `src/unnamed/part_000` lines
117-120). -/
def stripLeadC : List Char → List Char
  | '/' :: t => t
  | l => l

/-- String wrapper for `stripLeadC`. -/
def stripLead (s : String) : String := String.mk (stripLeadC s.data)

/-- JavaScript-style whitespace test for `String.prototype.trim`
(restricted to the common whitespace characters; the sources only trim
ordinary payloads). -/
def isSpaceC (c : Char) : Bool := c = ' ' ∨ c = '\t' ∨ c = '\n' ∨ c = '\r'

/-- `String.prototype.trim` on characters. -/
def trimC (l : List Char) : List Char :=
  ((l.dropWhile isSpaceC).reverse.dropWhile isSpaceC).reverse

/-- String wrapper for `trimC`. -/
def jsTrim (s : String) : String := String.mk (trimC s.data)

/-- `Buffer.byteLength(s, 'utf8')`: UTF-8 byte length of a string. -/
def utf8Len (s : String) : Nat :=
  s.data.foldl (fun n c => n + c.utf8Size) 0

example : posixJoin "/uploads" "/a.txt" = "/uploads/a.txt" := by decide
example : posixJoin "hello" "a.txt" = "hello/a.txt" := by decide
example : stripLead "/uploads/a.txt" = "uploads/a.txt" := by decide
example : posixJoin "." "a.txt" = "a.txt" := by decide
example : basenameStr "dir/sub/f.txt" = "f.txt" := by decide
example : utf8Len "hello" = 5 := by decide
example : jsTrim "  hello " = "hello" := by decide
example : pnorm "//uploads//a.txt".data = "/uploads/a.txt".data := by decide

/-! ## Data model

Requests, payload shapes, the remote-call oracle, results and the
observable event trace. -/

/-- An upload source after the legacy `{filename, data}` unwrap:
a JS string, a `Buffer` (only its length matters to the code),
a readable stream (`typeof src.pipe === 'function'`), or any other
value (other objects, `undefined`, `null`). -/
inductive UpSrc where
  | str (s : String)
  | buf (len : Nat)
  | stream
  | other
deriving DecidableEq

/-- The shape of `msg.payload`: a string, a `Buffer`, a stream, the
legacy `{filename?, data}` object, or anything else. -/
inductive Payload where
  | str (s : String)
  | buf (len : Nat)
  | stream
  | legacy (filename : Option String) (data : UpSrc)
  | other
deriving DecidableEq

/-- Payload viewed as an upload source when it is not the legacy shape. -/
def Payload.toSrc : Payload → UpSrc
  | .str s => .str s
  | .buf n => .buf n
  | .stream => .stream
  | .legacy _ _ => .other
  | .other => .other

/-- The request-message fields the two nodes read.  `none` models an
absent field; `some ""` is falsy in the `||` chains, handled by
`orStr`. Connection fields (`host`, `port`, ...) only feed the opaque
`connect` call and are omitted. -/
structure Msg where
  payload : Payload
  workdir : Option String
  filename : Option String
  localPath : Option String
deriving DecidableEq

/-- Node configuration after the constructor defaults
(`operation || 'list'`, `filename || ''`, `workdir || '.'`). -/
structure NodeCfg where
  operation : String
  filename : String
  workdir : String
deriving DecidableEq

/-- JavaScript `a || b` on an optional string field (empty string is
falsy). -/
def orStr (o : Option String) (d : String) : String :=
  match o with
  | some s => if s = "" then d else s
  | none => d

/-- Errors: a remote rejection (abstract code from the oracle), the
`size mismatch` error thrown by `put` verification, the unknown-operation
error, and the `fs.statSync` exception for a missing `msg.localPath`
(secondary variant). -/
inductive Err where
  | rem (code : Nat)
  | sizeMismatch (expected : Nat) (got : Int)
  | unknownOp (op : String)
  | noLocalFile (p : String)
deriving DecidableEq

/-- Oracle for one request: the outcome of each remote call the handler
can make.  `cwdR` returns the current directory (used as `prevDir` by
the secondary variant); `statR` returns the remote file size;
`endFinR` is the `finally`-block `end()` of the main variant (its error
is swallowed there). -/
structure Remote where
  connectR : Except Err Unit
  cwdR : Except Err String
  cwdBackR : Except Err Unit
  mkdirR : Except Err Unit
  rmdirR : Except Err Unit
  listR : Except Err (List String)
  getR : Except Err Nat
  delR : Except Err Unit
  putR : Except Err Unit
  statR : Except Err Nat
  endR : Except Err Unit
  endFinR : Except Err Unit

/-- Equality of remote-call results is decidable (needed to evaluate
concrete scenarios). -/
instance {α β : Type _} [DecidableEq α] [DecidableEq β] :
    DecidableEq (Except α β) := fun x y =>
  match x, y with
  | .ok a, .ok b =>
    if h : a = b then isTrue (by rw [h]) else isFalse (by simp [h])
  | .error a, .error b =>
    if h : a = b then isTrue (by rw [h]) else isFalse (by simp [h])
  | .ok _, .error _ => isFalse (by simp)
  | .error _, .ok _ => isFalse (by simp)

/-- An all-success oracle with a given `cwd` answer and remote stat
size, for concrete scenarios. -/
def okRemote (prevDir : String) (statSize : Nat) : Remote :=
  { connectR := .ok (), cwdR := .ok prevDir, cwdBackR := .ok (),
    mkdirR := .ok (), rmdirR := .ok (), listR := .ok [],
    getR := .ok 0, delR := .ok (), putR := .ok (), statR := .ok statSize,
    endR := .ok (), endFinR := .ok () }

/-- The result payload placed on `msg.payload` by each operation. -/
inductive ResPayload where
  | listing (l : List String)
  | fileData (d : Nat)
  | deletedMsg
  | deletedObj (f : String)
  | created (p : String)
  | removed (p : String)
  | closedMsg
  | closedObj
  | putOk (path : String) (size : Int)
  | unchanged
deriving DecidableEq

/-- Request outcome: `success` = `send(msg)` fired (plus `done()` in the
secondary variant); `failure` = `done(err)` fired; `crashed` = the
handler's promise rejected without any completion signal (secondary
variant, connection failure escaping the `try` block). -/
inductive Outcome where
  | success (p : ResPayload)
  | failure (e : Err)
  | crashed (e : Err)
deriving DecidableEq

/-- Observable events of a run: request `k` began executing, a
connection was opened as session `h`, a remote call was made on session
`h`, `end()` was called on session `h`, and the completion signal of
request `k` fired (`ok` = success). -/
inductive Ev where
  | begin (k : Nat)
  | connectCall (h : Nat)
  | sessionCall (h : Nat) (op : String) (arg : String)
  | endCall (h : Nat)
  | complete (k : Nat) (ok : Bool)
deriving DecidableEq

/-! ## Main variant (`src/transports/sftp/index.js`)

The interpreter of one `run(msg, send, done)` call, parameterised by the
node configuration, the local filesystem size map, the per-request
oracle, the cached client (`node.cfg._client`) and a fresh session id
used if a connection is opened. -/

/-- Lines 94-97: a non-empty trimmed string payload is a path override. -/
def payloadPathOf : Payload → Option String
  | .str s => let t := jsTrim s; if t = "" then none else some t
  | _ => none

/-- Line 103: `const workdir = payloadPath || msg.workdir || node.workdir
|| '.'` (note: applied to every operation, including `put`). -/
def mainWorkdir (cfg : NodeCfg) (msg : Msg) : String :=
  match payloadPathOf msg.payload with
  | some p => p
  | none => orStr msg.workdir (orStr (some cfg.workdir) ".")

/-- Lines 104-106: `rFile` is `msg.filename || node.filename`, replaced
by `basename(payloadPath)` for `get`/`delete` with a string payload. -/
def mainRFile (cfg : NodeCfg) (msg : Msg) : String :=
  let r0 := orStr msg.filename cfg.filename
  match payloadPathOf msg.payload with
  | some p => if cfg.operation = "get" ∨ cfg.operation = "delete" then basenameStr p else r0
  | none => r0

/-- Lines 148-152: the upload source after the legacy unwrap. -/
def mainSrcOf : Payload → UpSrc
  | .legacy _ d => d
  | p => p.toSrc

/-- Lines 149-151: `if (src.filename) rFile = src.filename` (falsy
filename keeps the configured name). -/
def mainRFileOf (rFile0 : String) : Payload → String
  | .legacy (some f) _ => if f = "" then rFile0 else f
  | _ => rFile0

/-- Line 153 applied after the legacy unwrap: the final remote file name
of a `put` in the main variant. -/
def mainPutFile (cfg : NodeCfg) (msg : Msg) : String :=
  stripLead (mainRFileOf (mainRFile cfg msg) msg.payload)

/-- Lines 158-161: the expected upload size — an existing local path's
size for a string, the length for a `Buffer`, otherwise `null`
(note: a string that is not an existing path also yields `null`). -/
def mainExpSize (fsys : String → Option Nat) : UpSrc → Option Nat
  | .str s => fsys s
  | .buf n => some n
  | _ => none

/-- Lines 147-175, `case 'put'`: legacy unwrap, leading-slash strip,
`mkdir` (recursive, error swallowed), `cwd(workdir)`, upload
(`fastPut` for an existing local path, else `put`), `stat` with a
`{size:-1}` fallback, size verification, result payload, `cwd('..')`. -/
def mainPut (cfg : NodeCfg) (fsys : String → Option Nat) (r : Remote)
    (msg : Msg) (workdir : String) (h : Nat) (cache : Option Nat) :
    List Ev × Option Nat × Except Err ResPayload :=
  let src := mainSrcOf msg.payload
  let rFile := mainPutFile cfg msg
  let upName : String :=
    match src with
    | .str s => match fsys s with | some _ => "fastPut" | none => "put"
    | _ => "put"
  let e0 : List Ev := [Ev.sessionCall h "mkdir" workdir]
  match r.cwdR with
  | .error e => (e0 ++ [Ev.sessionCall h "cwd" workdir], cache, .error e)
  | .ok _ =>
    let e1 := e0 ++ [Ev.sessionCall h "cwd" workdir]
    match r.putR with
    | .error e => (e1 ++ [Ev.sessionCall h upName rFile], cache, .error e)
    | .ok _ =>
      let e2 := e1 ++ [Ev.sessionCall h upName rFile, Ev.sessionCall h "stat" rFile]
      let st : Int := match r.statR with | .ok n => (n : Int) | .error _ => -1
      match mainExpSize fsys src with
      | some e' =>
        if st ≠ (e' : Int) then (e2, cache, .error (.sizeMismatch e' st))
        else
          match r.cwdBackR with
          | .error e => (e2 ++ [Ev.sessionCall h "cwd" ".."], cache, .error e)
          | .ok _ => (e2 ++ [Ev.sessionCall h "cwd" ".."], cache,
              .ok (.putOk (posixJoin workdir rFile) st))
      | none =>
        match r.cwdBackR with
        | .error e => (e2 ++ [Ev.sessionCall h "cwd" ".."], cache, .error e)
        | .ok _ => (e2 ++ [Ev.sessionCall h "cwd" ".."], cache,
            .ok (.putOk (posixJoin workdir rFile) st))

/-- Lines 110-179: the `switch (node.operation)` dispatch of the main
variant.  Returns the remote-call events, the cache after the dispatch
and the thrown error or result payload. -/
def mainDispatch (cfg : NodeCfg) (fsys : String → Option Nat) (r : Remote)
    (msg : Msg) (h : Nat) (cache : Option Nat) :
    List Ev × Option Nat × Except Err ResPayload :=
  let workdir := mainWorkdir cfg msg
  let rFile := mainRFile cfg msg
  let pp := payloadPathOf msg.payload
  let target := match pp with | some _ => workdir | none => posixJoin workdir rFile
  if cfg.operation = "open" then ([], cache, .ok .unchanged)
  else if cfg.operation = "close" then
    match r.endR with
    | .ok _ => ([Ev.endCall h], none, .ok .closedMsg)
    | .error e => ([Ev.endCall h], cache, .error e)
  else if cfg.operation = "list" then
    match r.listR with
    | .ok l => ([Ev.sessionCall h "list" workdir], cache, .ok (.listing l))
    | .error e => ([Ev.sessionCall h "list" workdir], cache, .error e)
  else if cfg.operation = "mkdir" then
    match r.mkdirR with
    | .ok _ => ([Ev.sessionCall h "mkdir" workdir], cache, .ok (.created workdir))
    | .error e => ([Ev.sessionCall h "mkdir" workdir], cache, .error e)
  else if cfg.operation = "rmdir" then
    match r.rmdirR with
    | .ok _ => ([Ev.sessionCall h "rmdir" workdir], cache, .ok (.removed workdir))
    | .error e => ([Ev.sessionCall h "rmdir" workdir], cache, .error e)
  else if cfg.operation = "get" then
    match r.getR with
    | .ok d => ([Ev.sessionCall h "get" target], cache, .ok (.fileData d))
    | .error e => ([Ev.sessionCall h "get" target], cache, .error e)
  else if cfg.operation = "delete" then
    match r.delR with
    | .ok _ => ([Ev.sessionCall h "delete" target], cache, .ok .deletedMsg)
    | .error e => ([Ev.sessionCall h "delete" target], cache, .error e)
  else if cfg.operation = "put" then mainPut cfg fsys r msg workdir h cache
  else ([], cache, .error (.unknownOp cfg.operation))

/-- Was the dispatch result a success (i.e. `send(msg)` runs)? -/
def resOk : Except Err ResPayload → Bool
  | .ok _ => true
  | .error _ => false

/-- Map the dispatch result onto the produced completion signal. -/
def outcomeOf : Except Err ResPayload → Outcome
  | .ok p => .success p
  | .error e => .failure e

/-- Lines 187-193, the `finally` block: if the session was opened for
this message only (`!hadCache`) and the operation is not `open`,
call `end()` (its error is swallowed). -/
def mainCleanup (hadCache : Bool) (op : String) (h : Nat) : List Ev :=
  if hadCache = false ∧ op ≠ "open" then [Ev.endCall h] else []

/-- Lines 99-193: the `try`/`catch`/`finally` body of `run` once a
session `h` is in hand. -/
def mainBody (cfg : NodeCfg) (fsys : String → Option Nat) (r : Remote)
    (msg : Msg) (h : Nat) (cache : Option Nat) (hadCache : Bool) (k : Nat) :
    List Ev × Option Nat × Outcome :=
  let d := mainDispatch cfg fsys r msg h cache
  (d.1 ++ Ev.complete k (resOk d.2.2) :: mainCleanup hadCache cfg.operation h,
   d.2.1, outcomeOf d.2.2)

/-- Lines 63-194: one `run(msg, send, done)` call of the main variant.
With no cached client, connect; a connection failure calls
`done(err)` and returns (lines 87-90); on success the client is cached
only for an `open` operation (line 86).  Returns the event trace, the
cache afterwards, and the outcome. -/
def mainRun (cfg : NodeCfg) (fsys : String → Option Nat) (r : Remote)
    (msg : Msg) (cache : Option Nat) (fresh k : Nat) :
    List Ev × Option Nat × Outcome :=
  match cache with
  | some h =>
    let b := mainBody cfg fsys r msg h (some h) true k
    (Ev.begin k :: b.1, b.2.1, b.2.2)
  | none =>
    match r.connectR with
    | .error e => ([Ev.begin k, Ev.connectCall fresh, Ev.complete k false],
        none, .failure e)
    | .ok _ =>
      let b := mainBody cfg fsys r msg fresh
        (if cfg.operation = "open" then some fresh else none) false k
      (Ev.begin k :: Ev.connectCall fresh :: b.1, b.2.1, b.2.2)

/-- A queued request: its message and the oracle for its remote calls. -/
structure Req where
  msg : Msg
  r : Remote

/-- Lines 57-61: `node.cfg._busy = node.cfg._busy.then(() => run(...))
.catch(() => {})`.  `run` settles (resolves) on every path — the connect
failure returns after `done(err)`, the body `catch` absorbs every thrown
error and the `finally` swallows teardown errors — so the promise chain
executes the queued runs one after another, each starting only after the
previous `run`'s promise resolved, and a failed run never prevents the
next from executing.  `chainBlocks` returns the per-request traces in
submission order, threading the cache. -/
def chainBlocks (cfg : NodeCfg) (fsys : String → Option Nat) :
    List Req → Nat → Option Nat → Nat → List (List Ev)
  | [], _, _, _ => []
  | q :: qs, k, cache, fresh =>
    let out := mainRun cfg fsys q.r q.msg cache fresh k
    out.1 :: chainBlocks cfg fsys qs (k + 1) out.2.1 (fresh + 1)

/-- The full event trace of a submission sequence on one configuration
node (one credential identity). -/
def chainTrace (cfg : NodeCfg) (fsys : String → Option Nat)
    (qs : List Req) (k : Nat) (cache : Option Nat) (fresh : Nat) : List Ev :=
  (chainBlocks cfg fsys qs k cache fresh).flatten

/-! ## Secondary variant (`src/unnamed/part_000`)

The `'input'` handler of `SFtpInNode`.  There is no queue: the async
handler starts executing as soon as a message is delivered.  The
sequential interpreter `v0Run` below gives the behaviour of one request
run in isolation; the small-step machine further down models the
interleaving of several in-flight handlers on the shared session. -/

/-- Treat `some ""` as an absent (falsy) optional field. -/
def optStr : Option String → Option String
  | some s => if s = "" then none else some s
  | none => none

/-- Lines 123-137: decide the source type and calculate the expected
size — an existing local path's size for a string, otherwise the
string's UTF-8 byte length (the string is uploaded as a buffer); a
buffer's length; unknown for a stream; for any other source,
`fs.statSync(msg.localPath).size` when `msg.localPath` is set (which
throws when the file does not exist). -/
def v0ExpSize (fsys : String → Option Nat) (localPath : Option String) :
    UpSrc → Except Err (Option Nat)
  | .str s =>
    match fsys s with
    | some n => .ok (some n)
    | none => .ok (some (utf8Len s))
  | .buf n => .ok (some n)
  | .stream => .ok none
  | .other =>
    match optStr localPath with
    | some p =>
      match fsys p with
      | some n => .ok (some n)
      | none => .error (.noLocalFile p)
    | none => .ok none

/-- Lines 106-120: the remote file of a `put` — `join(workdir, inFile)`,
replaced by `join(workdir, payload.filename)` for a truthy legacy
filename, then one leading `'/'` stripped from the joined path. -/
def v0RemoteFile (workdir inFile : String) : Payload → String
  | .legacy (some f) _ =>
    if f = "" then stripLead (posixJoin workdir inFile)
    else stripLead (posixJoin workdir f)
  | _ => stripLead (posixJoin workdir inFile)

/-- Lines 97-158, `case 'put'` of the secondary variant: conditional
recursive `mkdir` (error swallowed), legacy unwrap, leading-slash strip,
size calculation, `put`, then verify by `stat` — here a `stat` failure
is rethrown (no `{size:-1}` fallback), and a size mismatch throws. -/
def v0Put (fsys : String → Option Nat) (r : Remote) (msg : Msg)
    (workdir inFile prevDir : String) (h : Nat) (cache : Option Nat) :
    List Ev × Option Nat × Except Err ResPayload :=
  let mkEv : List Ev :=
    if workdir ≠ "." ∧ workdir ≠ prevDir then [Ev.sessionCall h "mkdir" workdir] else []
  let src := mainSrcOf msg.payload
  let remoteFile := v0RemoteFile workdir inFile msg.payload
  match v0ExpSize fsys msg.localPath src with
  | .error e => (mkEv, cache, .error e)
  | .ok exp =>
    match r.putR with
    | .error e => (mkEv ++ [Ev.sessionCall h "put" remoteFile], cache, .error e)
    | .ok _ =>
      let e1 := mkEv ++ [Ev.sessionCall h "put" remoteFile, Ev.sessionCall h "stat" remoteFile]
      match r.statR with
      | .error e => (e1, cache, .error e)
      | .ok n =>
        match exp with
        | some ex =>
          if n ≠ ex then (e1, cache, .error (.sizeMismatch ex (n : Int)))
          else (e1, cache, .ok (.putOk remoteFile (n : Int)))
        | none => (e1, cache, .ok (.putOk remoteFile (n : Int)))

/-- Lines 96-167: the `switch (node.operation)` of the secondary
variant.  Note there is no `open` case: it falls through to the
unknown-operation error.  `close` ends the session and clears the
cache. -/
def v0Dispatch (cfg : NodeCfg) (fsys : String → Option Nat) (r : Remote)
    (msg : Msg) (workdir inFile prevDir : String) (h : Nat) (cache : Option Nat) :
    List Ev × Option Nat × Except Err ResPayload :=
  if cfg.operation = "put" then v0Put fsys r msg workdir inFile prevDir h cache
  else if cfg.operation = "list" then
    match r.listR with
    | .ok l => ([Ev.sessionCall h "list" workdir], cache, .ok (.listing l))
    | .error e => ([Ev.sessionCall h "list" workdir], cache, .error e)
  else if cfg.operation = "get" then
    match r.getR with
    | .ok d => ([Ev.sessionCall h "get" (posixJoin workdir inFile)], cache, .ok (.fileData d))
    | .error e => ([Ev.sessionCall h "get" (posixJoin workdir inFile)], cache, .error e)
  else if cfg.operation = "delete" then
    match r.delR with
    | .ok _ => ([Ev.sessionCall h "delete" (posixJoin workdir inFile)], cache,
        .ok (.deletedObj inFile))
    | .error e => ([Ev.sessionCall h "delete" (posixJoin workdir inFile)], cache, .error e)
  else if cfg.operation = "mkdir" then
    match r.mkdirR with
    | .ok _ => ([Ev.sessionCall h "mkdir" workdir], cache, .ok (.created workdir))
    | .error e => ([Ev.sessionCall h "mkdir" workdir], cache, .error e)
  else if cfg.operation = "rmdir" then
    match r.rmdirR with
    | .ok _ => ([Ev.sessionCall h "rmdir" workdir], cache, .ok (.removed workdir))
    | .error e => ([Ev.sessionCall h "rmdir" workdir], cache, .error e)
  else if cfg.operation = "close" then
    match r.endR with
    | .ok _ => ([Ev.endCall h], none, .ok .closedObj)
    | .error e => ([Ev.endCall h], cache, .error e)
  else ([], cache, .error (.unknownOp cfg.operation))

/-- Lines 89-174: the `try`/`catch` body — derive `workdir`/`inFile`,
probe `prevDir = await sftp.cwd()` (a failure is caught and reported via
`done(err)`), dispatch, then `send(msg); done()` on success or
`done(err)` on error.  There is no `finally`: the cache is left as the
dispatch set it. -/
def v0Body (cfg : NodeCfg) (fsys : String → Option Nat) (r : Remote)
    (msg : Msg) (h : Nat) (cache : Option Nat) (k : Nat) :
    List Ev × Option Nat × Outcome :=
  let workdir := orStr msg.workdir (orStr (some cfg.workdir) ".")
  let inFile := orStr msg.filename cfg.filename
  match r.cwdR with
  | .error e => ([Ev.sessionCall h "cwd" "", Ev.complete k false], cache, .failure e)
  | .ok prevDir =>
    let d := v0Dispatch cfg fsys r msg workdir inFile prevDir h cache
    (Ev.sessionCall h "cwd" "" :: d.1 ++ [Ev.complete k (resOk d.2.2)],
     d.2.1, outcomeOf d.2.2)

/-- Lines 54-175: one `'input'` handler execution of the secondary
variant, run to completion in isolation.  With no cached client the
handler connects and always caches the fresh client (line 83); the
`await sftp.connect` sits outside the `try` block, so a connection
failure makes the async handler reject without ever calling `done` —
outcome `crashed`. -/
def v0Run (cfg : NodeCfg) (fsys : String → Option Nat) (r : Remote)
    (msg : Msg) (cache : Option Nat) (fresh k : Nat) :
    List Ev × Option Nat × Outcome :=
  match cache with
  | some h =>
    let b := v0Body cfg fsys r msg h (some h) k
    (Ev.begin k :: b.1, b.2.1, b.2.2)
  | none =>
    match r.connectR with
    | .error e => ([Ev.begin k, Ev.connectCall fresh], none, .crashed e)
    | .ok _ =>
      let b := v0Body cfg fsys r msg fresh (some fresh) k
      (Ev.begin k :: Ev.connectCall fresh :: b.1, b.2.1, b.2.2)

/-! ### Interleaving machine for the secondary variant

`src/unnamed/part_000` registers `node.on('input', async (msg, send,
done) => ...)` with no serialization.  Under the JavaScript event loop,
each delivery runs the handler synchronously up to its first `await`,
then suspends; the continuation resumes in a later event-loop turn when
the awaited promise settles.  The machine below models that execution
for the `list` operation (the other operations only differ in the
segment after the `cwd` probe): the handler's suspension points are
`await sftp.connect(..)` (line 82, only when no client is cached),
`const prevDir = await sftp.cwd()` (line 92), and
`msg.payload = await sftp.list(workdir)` (line 160). -/

/-- A suspended `'input'` handler of the secondary variant (`list`
operation): which `await` it is parked on, with the values its closure
holds (request id, session, derived working directory). -/
inductive V0Task where
  | awaitingConnect (k fresh : Nat) (wd : String)
  | awaitingCwd (k h : Nat) (wd : String)
  | awaitingList (k h : Nat)
deriving DecidableEq

/-- The event-loop state: the shared `node.cfg._client`, the suspended
handlers, and the observable trace so far. -/
structure V0Loop where
  cache : Option Nat
  tasks : List V0Task
  trace : List Ev
deriving DecidableEq

/-- An event-loop turn: a message delivery starts a handler; a
resumption feeds a settled promise to a suspended handler. -/
inductive V0Act where
  | deliver (k fresh : Nat) (msg : Msg)
  | resumeConnect (k : Nat) (res : Except Err Unit)
  | resumeCwd (k : Nat) (res : Except Err String)
  | resumeList (k : Nat) (res : Except Err (List String))

/-- The request id a suspended task belongs to. -/
def V0Task.key : V0Task → Nat
  | .awaitingConnect k _ _ => k
  | .awaitingCwd k _ _ => k
  | .awaitingList k _ => k

/-- Remove the task of request `k`. -/
def removeTask (k : Nat) (ts : List V0Task) : List V0Task :=
  ts.filter (fun t => t.key ≠ k)

/-- Find the connect-suspended task of request `k`. -/
def findConn (k : Nat) : List V0Task → Option (Nat × String)
  | [] => none
  | .awaitingConnect k' f wd :: rest =>
    if k' = k then some (f, wd) else findConn k rest
  | _ :: rest => findConn k rest

/-- Find the cwd-suspended task of request `k`. -/
def findCwd (k : Nat) : List V0Task → Option (Nat × String)
  | [] => none
  | .awaitingCwd k' h wd :: rest =>
    if k' = k then some (h, wd) else findCwd k rest
  | _ :: rest => findCwd k rest

/-- Find the list-suspended task of request `k`. -/
def findList (k : Nat) : List V0Task → Option Nat
  | [] => none
  | .awaitingList k' h :: rest => if k' = k then some h else findList k rest
  | _ :: rest => findList k rest

/-- One event-loop turn of the secondary variant running the `list`
operation.  `deliver` executes lines 54-92 synchronously: with a cached
client it reaches `await sftp.cwd()` immediately (already touching the
shared session); without one it parks on `await sftp.connect`.
`resumeConnect` executes line 83 (`node.cfg._client = sftp`) and runs on
to the `cwd` probe, or — on a connect rejection — abandons the handler
with no completion signal.  `resumeCwd` runs the `list` call of line
160; `resumeList` executes `send(msg); done()` (or `done(err)`),
completing the request. -/
def v0Step (cfg : NodeCfg) (st : V0Loop) : V0Act → V0Loop
  | .deliver k fresh msg =>
    let wd := orStr msg.workdir (orStr (some cfg.workdir) ".")
    match st.cache with
    | some h =>
      { cache := st.cache,
        tasks := st.tasks ++ [.awaitingCwd k h wd],
        trace := st.trace ++ [Ev.begin k, Ev.sessionCall h "cwd" ""] }
    | none =>
      { cache := none,
        tasks := st.tasks ++ [.awaitingConnect k fresh wd],
        trace := st.trace ++ [Ev.begin k, Ev.connectCall fresh] }
  | .resumeConnect k res =>
    match findConn k st.tasks with
    | none => st
    | some (f, wd) =>
      match res with
      | .error _ =>
        { cache := st.cache, tasks := removeTask k st.tasks, trace := st.trace }
      | .ok _ =>
        { cache := some f,
          tasks := removeTask k st.tasks ++ [.awaitingCwd k f wd],
          trace := st.trace ++ [Ev.sessionCall f "cwd" ""] }
  | .resumeCwd k res =>
    match findCwd k st.tasks with
    | none => st
    | some (h, wd) =>
      match res with
      | .error _ =>
        { cache := st.cache, tasks := removeTask k st.tasks,
          trace := st.trace ++ [Ev.complete k false] }
      | .ok _ =>
        { cache := st.cache,
          tasks := removeTask k st.tasks ++ [.awaitingList k h],
          trace := st.trace ++ [Ev.sessionCall h "list" wd] }
  | .resumeList k res =>
    match findList k st.tasks with
    | none => st
    | some _ =>
      match res with
      | .ok _ =>
        { cache := st.cache, tasks := removeTask k st.tasks,
          trace := st.trace ++ [Ev.complete k true] }
      | .error _ =>
        { cache := st.cache, tasks := removeTask k st.tasks,
          trace := st.trace ++ [Ev.complete k false] }

/-- Run a sequence of event-loop turns. -/
def v0Steps (cfg : NodeCfg) (st : V0Loop) (acts : List V0Act) : V0Loop :=
  acts.foldl (v0Step cfg) st

/-! ## Concrete scenario data

Configurations, messages and oracles used by particular witnesses and
counterexamples below. -/

/-- An empty local filesystem: no path exists. -/
def fs0 : String → Option Nat := fun _ => none

/-- A local filesystem with one file `f.bin` of 3 bytes. -/
def fs1 : String → Option Nat := fun p => if p = "f.bin" then some 3 else none

/-- A node configured for `put` with constructor defaults. -/
def cfgPut : NodeCfg := { operation := "put", filename := "", workdir := "." }

/-- A node configured for `close`. -/
def cfgClose : NodeCfg := { operation := "close", filename := "", workdir := "." }

/-- A node configured for `list`. -/
def cfgList : NodeCfg := { operation := "list", filename := "", workdir := "." }

/-- A message with no fields set. -/
def msgEmpty : Msg :=
  { payload := .other, workdir := none, filename := none, localPath := none }

/-- The specification scenario: `{operation: put, workdir: "/uploads",
filename: "/a.txt", payload: "hello"}`. -/
def msgC3 : Msg :=
  { payload := .str "hello", workdir := some "/uploads",
    filename := some "/a.txt", localPath := none }

/-- A `put` request with a legacy `{data: "hello"}` payload (literal
string content, not a local path). -/
def msgLegacyHello : Msg :=
  { payload := .legacy none (.str "hello"), workdir := some "/uploads",
    filename := some "a.txt", localPath := none }

/-- A `put` request with a 5-byte buffer payload. -/
def msgBuf5 : Msg :=
  { payload := .buf 5, workdir := some "/uploads",
    filename := some "a.txt", localPath := none }

/-- A `put` request with a stream payload (unknown expected size). -/
def msgStream : Msg :=
  { payload := .stream, workdir := some "/uploads",
    filename := some "a.txt", localPath := none }

/-- An oracle whose remote `stat` reports 9 bytes. -/
def remStat9 : Remote := okRemote "." 9

/-- An oracle whose `end()` call rejects. -/
def remEndFail : Remote := { okRemote "." 5 with endR := .error (.rem 3) }

/-- An oracle whose `connect` rejects. -/
def remConnFail : Remote := { okRemote "." 5 with connectR := .error (.rem 9) }

/-- An oracle whose `cwd()` probe rejects. -/
def remCwdFail : Remote := { okRemote "." 5 with cwdR := .error (.rem 4) }

/-- An oracle whose `stat` rejects. -/
def remStatFail : Remote := { okRemote "." 5 with statR := .error (.rem 2) }

/-- An oracle whose `list` rejects. -/
def remListFail : Remote := { okRemote "." 5 with listR := .error (.rem 6) }

/-- Two queued requests on one configuration node, the first of which
fails (its `list` call is rejected). -/
def qs2 : List Req :=
  [{ msg := msgEmpty, r := remListFail }, { msg := msgEmpty, r := okRemote "." 5 }]

/-- Event-loop start state for the interleaving machine: a session `7`
is cached, no handler in flight. -/
def v0Start : V0Loop := { cache := some 7, tasks := [], trace := [] }

/-- Event-loop schedule: deliver requests 1 and 2 back-to-back (request
2 arrives while request 1 awaits its `cwd` probe), then let each promise
settle in order. -/
def c1Acts : List V0Act :=
  [.deliver 1 8 msgEmpty, .deliver 2 9 msgEmpty,
   .resumeCwd 1 (.ok "."), .resumeList 1 (.ok []),
   .resumeCwd 2 (.ok "."), .resumeList 2 (.ok [])]

/-! ## Trace-position helpers -/

/-- An element of a list occurs at some position. -/
theorem memPos {α : Type _} {a : α} {l : List α} (h : a ∈ l) :
    ∃ n, n < l.length ∧ l.get? n = some a := by
  induction l with
  | nil => cases h
  | cons b t ih =>
    cases h with
    | head => exact ⟨0, by simp, rfl⟩
    | tail _ h' =>
      obtain ⟨n, hn, hg⟩ := ih h'
      exact ⟨n + 1, by simpa using hn, by simpa using hg⟩

/-- Every run of the main variant starts with its begin event. -/
theorem mainRun_head (cfg : NodeCfg) (fsys : String → Option Nat) (r : Remote)
    (msg : Msg) (cache : Option Nat) (fresh k : Nat) :
    (mainRun cfg fsys r msg cache fresh k).1.get? 0 = some (Ev.begin k) := by
  unfold mainRun
  rcases cache with _ | h
  · rcases hc : r.connectR with e | u <;> simp [hc]
  · simp

/-- Every dispatch body of the main variant fires exactly one completion
signal; in particular the completion event is in its trace. -/
theorem mainBody_complete_mem (cfg : NodeCfg) (fsys : String → Option Nat)
    (r : Remote) (msg : Msg) (h : Nat) (cache : Option Nat) (hadCache : Bool)
    (k : Nat) :
    ∃ b, Ev.complete k b ∈ (mainBody cfg fsys r msg h cache hadCache k).1 := by
  refine ⟨resOk (mainDispatch cfg fsys r msg h cache).2.2, ?_⟩
  unfold mainBody
  simp

/-- Every run of the main variant fires a completion signal: `done(err)`
on a connection failure (line 89) or after a thrown operation error
(line 186), `send(msg)` on success (line 182). -/
theorem mainRun_complete_mem (cfg : NodeCfg) (fsys : String → Option Nat)
    (r : Remote) (msg : Msg) (cache : Option Nat) (fresh k : Nat) :
    ∃ b, Ev.complete k b ∈ (mainRun cfg fsys r msg cache fresh k).1 := by
  unfold mainRun
  rcases cache with _ | h
  · rcases hc : r.connectR with e | u
    · exact ⟨false, by simp [hc]⟩
    · obtain ⟨b, hb⟩ := mainBody_complete_mem cfg fsys r msg fresh
        (if cfg.operation = "open" then some fresh else none) false k
      exact ⟨b, by simp [hc, hb]⟩
  · obtain ⟨b, hb⟩ := mainBody_complete_mem cfg fsys r msg h (some h) true k
    exact ⟨b, by simp [hb]⟩

/-- Unfolding of the chain trace for one submitted request. -/
theorem chainTrace_cons (cfg : NodeCfg) (fsys : String → Option Nat)
    (q : Req) (qs : List Req) (k : Nat) (cache : Option Nat) (fresh : Nat) :
    chainTrace cfg fsys (q :: qs) k cache fresh =
      (mainRun cfg fsys q.r q.msg cache fresh k).1 ++
        chainTrace cfg fsys qs (k + 1)
          (mainRun cfg fsys q.r q.msg cache fresh k).2.1 (fresh + 1) := by
  simp [chainTrace, chainBlocks]

/-- The begin event of the `j`-th submitted request occurs in the chain
trace. -/
theorem chain_begin_pos (cfg : NodeCfg) (fsys : String → Option Nat) :
    ∀ (qs : List Req) (k : Nat) (cache : Option Nat) (fresh j : Nat),
      j < qs.length →
      ∃ q, (chainTrace cfg fsys qs k cache fresh).get? q =
        some (Ev.begin (k + j)) := by
  intro qs
  induction qs with
  | nil =>
    intro k cache fresh j hj
    simp at hj
  | cons q0 qs ih =>
    intro k cache fresh j hj
    rcases Nat.eq_zero_or_pos j with rfl | hpos
    · refine ⟨0, ?_⟩
      rw [chainTrace_cons]
      have h0 := mainRun_head cfg fsys q0.r q0.msg cache fresh k
      have hlen : 0 < (mainRun cfg fsys q0.r q0.msg cache fresh k).1.length := by
        rcases hl : (mainRun cfg fsys q0.r q0.msg cache fresh k).1 with _ | ⟨e, rest⟩
        · rw [hl] at h0; simp at h0
        · simp
      rw [List.get?_append hlen]
      simpa using h0
    · obtain ⟨j', rfl⟩ : ∃ j', j = j' + 1 := ⟨j - 1, by omega⟩
      obtain ⟨q, hq⟩ := ih (k + 1)
        (mainRun cfg fsys q0.r q0.msg cache fresh k).2.1 (fresh + 1) j'
        (by simp at hj; omega)
      refine ⟨(mainRun cfg fsys q0.r q0.msg cache fresh k).1.length + q, ?_⟩
      rw [chainTrace_cons, List.get?_append_right (by omega)]
      have harith : k + 1 + j' = k + (j' + 1) := by omega
      rw [Nat.add_sub_cancel_left] at *
      simpa [harith] using hq

/-- The completion event of the `j`-th submitted request occurs in the
chain trace: a failure of an earlier request does not prevent later
requests from executing to completion. -/
theorem chain_complete_pos (cfg : NodeCfg) (fsys : String → Option Nat) :
    ∀ (qs : List Req) (k : Nat) (cache : Option Nat) (fresh j : Nat),
      j < qs.length →
      ∃ p b, (chainTrace cfg fsys qs k cache fresh).get? p =
        some (Ev.complete (k + j) b) := by
  intro qs
  induction qs with
  | nil =>
    intro k cache fresh j hj
    simp at hj
  | cons q0 qs ih =>
    intro k cache fresh j hj
    rcases Nat.eq_zero_or_pos j with rfl | hpos
    · obtain ⟨b, hb⟩ := mainRun_complete_mem cfg fsys q0.r q0.msg cache fresh k
      obtain ⟨p, hp, hgp⟩ := memPos hb
      refine ⟨p, b, ?_⟩
      rw [chainTrace_cons, List.get?_append hp]
      simpa using hgp
    · obtain ⟨j', rfl⟩ : ∃ j', j = j' + 1 := ⟨j - 1, by omega⟩
      obtain ⟨p, b, hp⟩ := ih (k + 1)
        (mainRun cfg fsys q0.r q0.msg cache fresh k).2.1 (fresh + 1) j'
        (by simp at hj; omega)
      refine ⟨(mainRun cfg fsys q0.r q0.msg cache fresh k).1.length + p, b, ?_⟩
      rw [chainTrace_cons, List.get?_append_right (by omega)]
      have harith : k + 1 + j' = k + (j' + 1) := by omega
      rw [Nat.add_sub_cancel_left]
      simpa [harith] using hp

/-- Serialization of the busy chain: for submissions `i < j` on the same
configuration node, request `i`'s completion signal occurs strictly
before request `j`'s begin event in the trace. -/
theorem chain_serial_aux (cfg : NodeCfg) (fsys : String → Option Nat) :
    ∀ (qs : List Req) (k : Nat) (cache : Option Nat) (fresh i j : Nat),
      i < j → j < qs.length →
      ∃ p q b, p < q ∧
        (chainTrace cfg fsys qs k cache fresh).get? p =
          some (Ev.complete (k + i) b) ∧
        (chainTrace cfg fsys qs k cache fresh).get? q =
          some (Ev.begin (k + j)) := by
  intro qs
  induction qs with
  | nil =>
    intro k cache fresh i j hij hj
    simp at hj
  | cons q0 qs ih =>
    intro k cache fresh i j hij hj
    rcases Nat.eq_zero_or_pos i with rfl | hpos
    · obtain ⟨b, hb⟩ := mainRun_complete_mem cfg fsys q0.r q0.msg cache fresh k
      obtain ⟨p, hp, hgp⟩ := memPos hb
      obtain ⟨j', rfl⟩ : ∃ j', j = j' + 1 := ⟨j - 1, by omega⟩
      obtain ⟨q, hq⟩ := chain_begin_pos cfg fsys qs (k + 1)
        (mainRun cfg fsys q0.r q0.msg cache fresh k).2.1 (fresh + 1) j'
        (by simp at hj; omega)
      refine ⟨p, (mainRun cfg fsys q0.r q0.msg cache fresh k).1.length + q, b,
        by omega, ?_, ?_⟩
      · rw [chainTrace_cons, List.get?_append hp]
        simpa using hgp
      · rw [chainTrace_cons, List.get?_append_right (by omega)]
        have harith : k + 1 + j' = k + (j' + 1) := by omega
        rw [Nat.add_sub_cancel_left]
        simpa [harith] using hq
    · obtain ⟨i', rfl⟩ : ∃ i', i = i' + 1 := ⟨i - 1, by omega⟩
      obtain ⟨j', rfl⟩ : ∃ j', j = j' + 1 := ⟨j - 1, by omega⟩
      obtain ⟨p, q, b, hpq, h1, h2⟩ := ih (k + 1)
        (mainRun cfg fsys q0.r q0.msg cache fresh k).2.1 (fresh + 1) i' j'
        (by omega) (by simp at hj; omega)
      refine ⟨(mainRun cfg fsys q0.r q0.msg cache fresh k).1.length + p,
        (mainRun cfg fsys q0.r q0.msg cache fresh k).1.length + q, b,
        by omega, ?_, ?_⟩
      · rw [chainTrace_cons, List.get?_append_right (by omega)]
        have harith : k + 1 + i' = k + (i' + 1) := by omega
        rw [Nat.add_sub_cancel_left]
        simpa [harith] using h1
      · rw [chainTrace_cons, List.get?_append_right (by omega)]
        have harith : k + 1 + j' = k + (j' + 1) := by omega
        rw [Nat.add_sub_cancel_left]
        simpa [harith] using h2

/-! ## Path normalization lemmas (for claim C7) -/

/-- Segments produced by splitting on `'/'` contain no `'/'`. -/
theorem splitChar_no_slash : ∀ (l : List Char), ∀ s ∈ splitChar l, '/' ∉ s := by
  intro l
  induction l with
  | nil =>
    intro s hs
    simp [splitChar] at hs
    simp [hs]
  | cons c rest ih =>
    intro s hs
    simp only [splitChar] at hs
    split at hs
    · rcases List.mem_cons.mp hs with rfl | h'
      · simp
      · exact ih s h'
    · rename_i hc
      split at hs
      · rename_i h t heq
        rcases List.mem_cons.mp hs with rfl | h'
        · intro hm
          rcases List.mem_cons.mp hm with he | hm'
          · exact hc he.symm
          · exact ih h (heq ▸ List.mem_cons_self h t) hm'
        · exact ih s (heq ▸ List.mem_cons_of_mem h h')
      · rename_i heq
        rcases List.mem_cons.mp hs with rfl | h'
        · intro hm
          rcases List.mem_cons.mp hm with he | hm'
          · exact hc he.symm
          · simp at hm'
        · simp at h'

/-- `dropDotDot` preserves non-emptiness and slash-freeness of the
stack's segments. -/
theorem dropDotDot_good (ab : Bool) (acc : List (List Char))
    (hacc : ∀ s ∈ acc, s ≠ [] ∧ '/' ∉ s) :
    ∀ s ∈ dropDotDot ab acc, s ≠ [] ∧ '/' ∉ s := by
  intro s hs
  rcases acc with _ | ⟨top, tl⟩
  · simp only [dropDotDot] at hs
    split at hs
    · rcases List.mem_cons.mp hs with rfl | h'
      · exact ⟨by simp, by decide⟩
      · simp at h'
    · simp at hs
  · simp only [dropDotDot] at hs
    split at hs
    · split at hs
      · rcases List.mem_cons.mp hs with rfl | h'
        · exact ⟨by simp, by decide⟩
        · exact hacc s h'
      · exact hacc s hs
    · exact hacc s (List.mem_cons_of_mem top hs)

/-- The segment stack built by `normStack` holds only non-empty
slash-free segments. -/
theorem normStack_good :
    ∀ (segs : List (List Char)) (ab : Bool) (acc : List (List Char)),
      (∀ s ∈ acc, s ≠ [] ∧ '/' ∉ s) → (∀ s ∈ segs, '/' ∉ s) →
      ∀ s ∈ normStack ab acc segs, s ≠ [] ∧ '/' ∉ s := by
  intro segs
  induction segs with
  | nil =>
    intro ab acc hacc _ s hs
    simp only [normStack] at hs
    exact hacc s (List.mem_reverse.mp hs)
  | cons seg rest ih =>
    intro ab acc hacc hsegs s hs
    have hrest : ∀ s ∈ rest, '/' ∉ s :=
      fun s hsm => hsegs s (List.mem_cons_of_mem seg hsm)
    simp only [normStack] at hs
    split at hs
    · exact ih ab acc hacc hrest s hs
    · rename_i hseg1
      split at hs
      · exact ih ab _ (dropDotDot_good ab acc hacc) hrest s hs
      · refine ih ab _ ?_ hrest s hs
        intro s' hs'
        rcases List.mem_cons.mp hs' with rfl | h'
        · refine ⟨?_, hsegs _ (List.mem_cons_self _ _)⟩
          intro he
          exact hseg1 (Or.inl he)
        · exact hacc s' h'

/-- Joining non-empty slash-free segments yields a list that does not
start with `'/'`. -/
theorem interJ_not_slash :
    ∀ (ls : List (List Char)), ls ≠ [] →
      (∀ s ∈ ls, s ≠ [] ∧ '/' ∉ s) → startsSlash (interJ ls) = false := by
  intro ls
  match ls with
  | [] => intro h _; exact absurd rfl h
  | [s] =>
    intro _ hgood
    obtain ⟨hne, hns⟩ := hgood s (by simp)
    rcases s with _ | ⟨c, t⟩
    · exact absurd rfl hne
    · have hc : c ≠ '/' := fun h => hns (h ▸ List.mem_cons_self c t)
      simp [interJ, startsSlash, hc]
  | s :: s2 :: rest =>
    intro _ hgood
    obtain ⟨hne, hns⟩ := hgood s (by simp)
    rcases s with _ | ⟨c, t⟩
    · exact absurd rfl hne
    · have hc : c ≠ '/' := fun h => hns (h ▸ List.mem_cons_self c t)
      simp [interJ, startsSlash, hc]

/-- A list that does not start with `'/'` does not start with `"//"`. -/
theorem startsDSlash_of_not_slash {l : List Char}
    (h : startsSlash l = false) : startsDSlash l = false := by
  rcases l with _ | ⟨c, t⟩
  · rfl
  · rcases t with _ | ⟨d, t'⟩
    · rfl
    · simp only [startsSlash] at h
      simp [startsDSlash, h]

/-- Prepending `'/'` to a list turns a starts-with-`'/'` test on the
result into a double-slash test. -/
theorem startsDSlash_cons_slash (l : List Char) :
    startsDSlash ('/' :: l) = startsSlash l := by
  rcases l with _ | ⟨d, t⟩
  · rfl
  · simp [startsDSlash, startsSlash]

/-- The head of an append is the head of its non-empty left part. -/
theorem startsSlash_append {l : List Char} (l' : List Char) (h : l ≠ []) :
    startsSlash (l ++ l') = startsSlash l := by
  rcases l with _ | ⟨c, t⟩
  · exact absurd rfl h
  · rfl

/-- When the path has remaining segments, `pnormCore` does not start
with `'/'`. -/
theorem pnormCore_not_slash (p : List Char)
    (h0 : interJ (normStack (!startsSlash p) [] (splitChar p)) ≠ []) :
    startsSlash (pnormCore p) = false := by
  have hgood : ∀ s ∈ normStack (!startsSlash p) [] (splitChar p),
      s ≠ [] ∧ '/' ∉ s :=
    normStack_good (splitChar p) (!startsSlash p) [] (by simp)
      (splitChar_no_slash p)
  have hls : normStack (!startsSlash p) [] (splitChar p) ≠ [] := by
    intro hcon
    exact h0 (by rw [hcon]; rfl)
  have hcore : startsSlash (interJ (normStack (!startsSlash p) [] (splitChar p))) = false :=
    interJ_not_slash _ hls hgood
  unfold pnormCore
  split
  · rw [startsSlash_append _ h0]
    exact hcore
  · exact hcore

/-- `pnorm` never yields a path starting with `"//"`: Node's
`normalizeString` collapses duplicate separators, and a single `'/'` is
re-attached for absolute inputs. -/
theorem pnorm_no_dslash (p : List Char) (hp : p ≠ []) :
    startsDSlash (pnorm p) = false := by
  unfold pnorm
  rw [if_neg hp]
  by_cases h0 : interJ (normStack (!startsSlash p) [] (splitChar p)) = []
  · rw [if_pos h0]
    split
    · decide
    · split <;> decide
  · rw [if_neg h0]
    split
    · rw [startsDSlash_cons_slash]
      exact pnormCore_not_slash p h0
    · exact startsDSlash_of_not_slash (pnormCore_not_slash p h0)

/-- `path.posix.join` never yields a path starting with `"//"`. -/
theorem pjoin_no_dslash (a b : List Char) : startsDSlash (pjoin a b) = false := by
  unfold pjoin pjoinAux
  by_cases h : (if a = [] then b else if b = [] then a else a ++ '/' :: b) = []
  · rw [if_pos h]; decide
  · rw [if_neg h]
    exact pnorm_no_dslash _ h

/-- Stripping one leading character moves the starts-with tests down:
after `stripLeadC` the result starts with `'/'` exactly when the input
started with `"//"`. -/
theorem startsSlash_stripLeadC (l : List Char) :
    startsSlash (stripLeadC l) = startsDSlash l := by
  rcases l with _ | ⟨c, t⟩
  · rfl
  · by_cases hc : c = '/'
    · subst hc
      rw [startsDSlash_cons_slash]
      rfl
    · have h1 : stripLeadC (c :: t) = c :: t := by
        unfold stripLeadC
        split
        · rename_i heq
          injection heq with he _
          exact absurd he.symm (fun h => hc h.symm)
        · rfl
      rw [h1]
      have h2 : startsSlash (c :: t) = false := by
        simp [startsSlash, hc]
      rw [h2]
      exact (startsDSlash_of_not_slash h2).symm ▸ rfl

/-! ## Dispatch cache lemmas -/

/-- A `put` never rebinds the cached client: `mainPut` returns the cache
it was given. -/
theorem mainPut_cache (cfg : NodeCfg) (fsys : String → Option Nat)
    (r : Remote) (msg : Msg) (workdir : String) (h : Nat) (cache : Option Nat) :
    (mainPut cfg fsys r msg workdir h cache).2.1 = cache := by
  unfold mainPut
  rcases r.cwdR with e | d
  · rfl
  · rcases r.putR with e | u
    · rfl
    · rcases hx : mainExpSize fsys (mainSrcOf msg.payload) with _ | ex
      · rcases r.cwdBackR with e | u2 <;> simp [hx]
      · rcases r.cwdBackR with e | u2 <;> simp [hx] <;> split <;> rfl

/-- Starting from an empty cache, no dispatch of the main variant leaves
a client cached: only the connect phase (for `open`) ever stores one. -/
theorem mainDispatch_cache_none (cfg : NodeCfg) (fsys : String → Option Nat)
    (r : Remote) (msg : Msg) (h : Nat) :
    (mainDispatch cfg fsys r msg h none).2.1 = none := by
  unfold mainDispatch
  split
  · rfl
  · split
    · rcases r.endR with e | u <;> rfl
    · split
      · rcases r.listR with e | u <;> rfl
      · split
        · rcases r.mkdirR with e | u <;> rfl
        · split
          · rcases r.rmdirR with e | u <;> rfl
          · split
            · rcases r.getR with e | u <;> rfl
            · split
              · rcases r.delR with e | u <;> rfl
              · split
                · exact mainPut_cache cfg fsys r msg _ h none
                · rfl

/-! ## Claims -/

/-- Claim C1 (amended): in the main variant, the per-credentials busy
chain totally orders the requests submitted to one configuration node:
for submissions `i < j`, request `i`'s completion signal fires strictly
before request `j`'s begin event, and every submitted request still runs
to completion even when earlier requests fail — a failure does not
poison the chain.  (The secondary variant has no such queue; see the
counterexample.) -/
theorem c1_main_busy_chain_serializes (cfg : NodeCfg)
    (fsys : String → Option Nat) (qs : List Req) (cache : Option Nat)
    (fresh i j : Nat) (hij : i < j) (hj : j < qs.length) :
    (∃ p q b, p < q ∧
      (chainTrace cfg fsys qs 0 cache fresh).get? p = some (Ev.complete i b) ∧
      (chainTrace cfg fsys qs 0 cache fresh).get? q = some (Ev.begin j)) ∧
    (∃ p b, (chainTrace cfg fsys qs 0 cache fresh).get? p =
      some (Ev.complete j b)) := by
  constructor
  · simpa using chain_serial_aux cfg fsys qs 0 cache fresh i j hij hj
  · simpa using chain_complete_pos cfg fsys qs 0 cache fresh j hj

/-- Witness for C1: two concrete queued requests, the first of which
fails (rejected `list`); the second still begins only after the first's
completion signal, and itself completes. -/
theorem c1_witness :
    (∃ p q b, p < q ∧
      (chainTrace cfgList fs0 qs2 0 none 0).get? p = some (Ev.complete 0 b) ∧
      (chainTrace cfgList fs0 qs2 0 none 0).get? q = some (Ev.begin 1)) ∧
    (∃ p b, (chainTrace cfgList fs0 qs2 0 none 0).get? p =
      some (Ev.complete 1 b)) :=
  c1_main_busy_chain_serializes cfgList fs0 qs2 none 0 0 1 (by decide) (by decide)

/-- Counterexample to C1 as stated: the secondary variant's handler is
attached without a queue, so when request 2 is delivered while request 1
awaits its `cwd` probe, request 2 begins executing and touches the
shared session (7) at trace positions 2 and 3, while request 1's
completion signal only fires at position 5 — the second request begins
before the first completes. -/
theorem c1_counterexample_v0_no_queue :
    ((v0Steps cfgList v0Start c1Acts).trace.get? 2 = some (Ev.begin 2)) ∧
    ((v0Steps cfgList v0Start c1Acts).trace.get? 3 =
      some (Ev.sessionCall 7 "cwd" "")) ∧
    ((v0Steps cfgList v0Start c1Acts).trace.get? 5 = some (Ev.complete 1 true)) ∧
    (∀ e ∈ (v0Steps cfgList v0Start c1Acts).trace.take 5,
      e ≠ Ev.complete 1 true ∧ e ≠ Ev.complete 1 false) := by
  decide

/-- Claim C2 (amended): expected upload size — in the main variant a
string source yields the size of an existing local file and otherwise
`null` (a non-path string is NOT treated as literal content there); in
the secondary variant a non-path string yields its UTF-8 byte length as
claimed; buffers yield their length, streams no size, in both.  When an
expected size was determined, a remote stat size differing from it makes
the `put` fail with a size-mismatch error in both variants (in the main
variant a failed stat reads as size `-1` and also mismatches). -/
theorem c2_expected_size_and_verification :
    (∀ (fsys : String → Option Nat) (s : String),
      mainExpSize fsys (.str s) = fsys s) ∧
    (∀ (fsys : String → Option Nat) (n : Nat),
      mainExpSize fsys (.buf n) = some n) ∧
    (∀ (fsys : String → Option Nat), mainExpSize fsys .stream = none) ∧
    (∀ (fsys : String → Option Nat) (s : String) (n : Nat), fsys s = some n →
      v0ExpSize fsys none (.str s) = .ok (some n)) ∧
    (∀ (fsys : String → Option Nat) (s : String), fsys s = none →
      v0ExpSize fsys none (.str s) = .ok (some (utf8Len s))) ∧
    (∀ (fsys : String → Option Nat) (lp : Option String) (n : Nat),
      v0ExpSize fsys lp (.buf n) = .ok (some n)) ∧
    (∀ (fsys : String → Option Nat) (lp : Option String),
      v0ExpSize fsys lp .stream = .ok none) ∧
    (∀ (cfg : NodeCfg) (fsys : String → Option Nat) (r : Remote) (msg : Msg)
      (h fresh k : Nat) (d : String) (e n : Nat),
      cfg.operation = "put" →
      mainExpSize fsys (mainSrcOf msg.payload) = some e →
      r.cwdR = .ok d → r.putR = .ok () → r.statR = .ok n → n ≠ e →
      (mainRun cfg fsys r msg (some h) fresh k).2.2 =
        .failure (.sizeMismatch e (n : Int))) ∧
    (∀ (cfg : NodeCfg) (fsys : String → Option Nat) (r : Remote) (msg : Msg)
      (h fresh k : Nat) (d : String) (e : Nat) (e' : Err),
      cfg.operation = "put" →
      mainExpSize fsys (mainSrcOf msg.payload) = some e →
      r.cwdR = .ok d → r.putR = .ok () → r.statR = .error e' →
      (mainRun cfg fsys r msg (some h) fresh k).2.2 =
        .failure (.sizeMismatch e (-1 : Int))) ∧
    (∀ (cfg : NodeCfg) (fsys : String → Option Nat) (r : Remote) (msg : Msg)
      (h fresh k : Nat) (d : String) (ex n : Nat),
      cfg.operation = "put" →
      v0ExpSize fsys msg.localPath (mainSrcOf msg.payload) = .ok (some ex) →
      r.cwdR = .ok d → r.putR = .ok () → r.statR = .ok n → n ≠ ex →
      (v0Run cfg fsys r msg (some h) fresh k).2.2 =
        .failure (.sizeMismatch ex (n : Int))) := by
  refine ⟨fun fsys s => rfl, fun fsys n => rfl, fun fsys => rfl,
    ?_, ?_, fun fsys lp n => rfl, fun fsys lp => rfl, ?_, ?_, ?_⟩
  · intro fsys s n hfs
    simp [v0ExpSize, hfs]
  · intro fsys s hfs
    simp [v0ExpSize, hfs]
  · intro cfg fsys r msg h fresh k d e n hop hexp hcwd hput hstat hne
    have hne' : (n : Int) ≠ (e : Int) := by exact_mod_cast hne
    unfold mainRun mainBody mainDispatch mainPut
    simp [hop, hexp, hcwd, hput, hstat, hne', outcomeOf]
  · intro cfg fsys r msg h fresh k d e e' hop hexp hcwd hput hstat
    have hne' : (-1 : Int) ≠ (e : Int) := by omega
    unfold mainRun mainBody mainDispatch mainPut
    simp [hop, hexp, hcwd, hput, hstat, hne', outcomeOf]
  · intro cfg fsys r msg h fresh k d ex n hop hexp hcwd hput hstat hne
    unfold v0Run v0Body v0Dispatch v0Put
    simp [hop, hexp, hcwd, hput, hstat, hne, outcomeOf]

/-- Witness for C2: concrete instantiations — a 3-byte local file `f.bin`
yields expected size 3 in the main variant; the secondary variant gives
the 5-byte UTF-8 length to the non-path string `"hello"`; and a `put` of
a 5-byte buffer whose remote stat reports 9 bytes fails with the
size-mismatch error in the main variant. -/
theorem c2_witness :
    mainExpSize fs1 (.str "f.bin") = fs1 "f.bin" ∧
    v0ExpSize fs0 none (.str "hello") = .ok (some (utf8Len "hello")) ∧
    (mainRun cfgPut fs0 remStat9 msgBuf5 (some 7) 0 0).2.2 =
      .failure (.sizeMismatch 5 (9 : Int)) :=
  ⟨c2_expected_size_and_verification.1 fs1 "f.bin",
   c2_expected_size_and_verification.2.2.2.2.1 fs0 "hello" rfl,
   c2_expected_size_and_verification.2.2.2.2.2.2.2.1 cfgPut fs0 remStat9 msgBuf5
     7 0 0 "." 5 9 rfl rfl rfl rfl rfl (by decide)⟩

/-- Counterexample to C2 as stated: in the main variant a literal string
source that names no local file (`{data: "hello"}`, no file `hello`)
yields NO expected size — not its byte length 5 — so a remote size of 9
differing from 5 does not fail the operation: it succeeds, reporting
the remote size. -/
theorem c2_counterexample_literal_string_not_verified :
    mainExpSize fs0 (mainSrcOf msgLegacyHello.payload) = none ∧
    (mainRun cfgPut fs0 remStat9 msgLegacyHello (some 7) 0 0).2.2 =
      .success (.putOk "/uploads/a.txt" 9) := by
  decide

/-- Claim C3 (amended): the scenario `{operation: put, workdir:
"/uploads", filename: "/a.txt", payload: "hello"}` behaves as claimed in
the secondary variant: expected size 5, resolved remote path
`uploads/a.txt`, and (with the remote stat reporting 5) the result
`{ok: true, path: "uploads/a.txt", size: 5}`.  (In the main variant the
same request resolves differently; see the counterexample.) -/
theorem c3_v0_scenario :
    v0ExpSize fs0 none (mainSrcOf msgC3.payload) = .ok (some 5) ∧
    v0RemoteFile "/uploads" "/a.txt" msgC3.payload = "uploads/a.txt" ∧
    v0Run cfgPut fs0 (okRemote "." 5) msgC3 (some 7) 0 0 =
      ([Ev.begin 0, Ev.sessionCall 7 "cwd" "", Ev.sessionCall 7 "mkdir" "/uploads",
        Ev.sessionCall 7 "put" "uploads/a.txt", Ev.sessionCall 7 "stat" "uploads/a.txt",
        Ev.complete 0 true], some 7, .success (.putOk "uploads/a.txt" 5)) := by
  decide

/-- Counterexample to C3 as stated: in the main variant the same request
does not resolve `uploads/a.txt` and determines no expected size — the
string payload `"hello"` overrides the working directory, so the upload
resolves to `hello/a.txt`. -/
theorem c3_counterexample_main_scenario :
    mainExpSize fs0 (mainSrcOf msgC3.payload) = none ∧
    (mainRun cfgPut fs0 (okRemote "." 5) msgC3 (some 7) 0 0).2.2 =
      .success (.putOk "hello/a.txt" 5) ∧
    ("hello/a.txt" : String) ≠ "uploads/a.txt" := by
  decide

/-- Claim C4 (amended): in the main variant, a request that starts with
no cached session and whose operation is not `open` never leaves a
client in the cache, and — whenever its connection was established —
calls `end()` on it by the end of the request, regardless of the
operation's success or failure.  (In the secondary variant every fresh
session is cached and kept; see the counterexample.) -/
theorem c4_main_uncached_session_torn_down (cfg : NodeCfg)
    (fsys : String → Option Nat) (r : Remote) (msg : Msg) (fresh k : Nat)
    (hop : cfg.operation ≠ "open") :
    (mainRun cfg fsys r msg none fresh k).2.1 = none ∧
    (r.connectR = .ok () →
      Ev.endCall fresh ∈ (mainRun cfg fsys r msg none fresh k).1) := by
  constructor
  · unfold mainRun
    rcases hc : r.connectR with e | u
    · simp [hc]
    · simp only [hc]
      rw [if_neg hop]
      unfold mainBody
      simp [mainDispatch_cache_none]
  · intro hc
    unfold mainRun
    simp only [hc]
    rw [if_neg hop]
    unfold mainBody
    have hclean : mainCleanup false cfg.operation fresh = [Ev.endCall fresh] := by
      unfold mainCleanup
      rw [if_pos ⟨rfl, hop⟩]
    simp [hclean]

/-- Witness for C4: a concrete `list` request on an empty cache — no
client cached afterwards and the fresh session 5 is ended. -/
theorem c4_witness :
    (mainRun cfgList fs0 (okRemote "." 5) msgEmpty none 5 0).2.1 = none ∧
    ((okRemote "." 5).connectR = .ok () →
      Ev.endCall 5 ∈ (mainRun cfgList fs0 (okRemote "." 5) msgEmpty none 5 0).1) :=
  c4_main_uncached_session_torn_down cfgList fs0 (okRemote "." 5) msgEmpty 5 0
    (by decide)

/-- Counterexample to C4 as stated: in the secondary variant a `list`
request arriving with no cached session leaves the freshly established
session 5 in the cache and never calls `end()` on it. -/
theorem c4_counterexample_v0_caches_fresh_session :
    v0Run cfgList fs0 (okRemote "." 5) msgEmpty none 5 0 =
      ([Ev.begin 0, Ev.connectCall 5, Ev.sessionCall 5 "cwd" "",
        Ev.sessionCall 5 "list" ".", Ev.complete 0 true], some 5,
        .success (.listing [])) ∧
    Ev.endCall 5 ∉ (v0Run cfgList fs0 (okRemote "." 5) msgEmpty none 5 0).1 := by
  decide

/-- Claim C5 (amended): a `close` operation that completes successfully
clears the cached session handle — in both variants — so the next
operation on that identity establishes a brand-new connection; but a
`close` whose teardown call fails reports the error and leaves the
handle cached (see the counterexample). -/
theorem c5_successful_close_clears_cache (cfg : NodeCfg)
    (fsys : String → Option Nat) (r : Remote) (msg : Msg)
    (cache : Option Nat) (fresh k : Nat) (hop : cfg.operation = "close") :
    (∀ p, (mainRun cfg fsys r msg cache fresh k).2.2 = .success p →
      (mainRun cfg fsys r msg cache fresh k).2.1 = none) ∧
    (∀ p, (v0Run cfg fsys r msg cache fresh k).2.2 = .success p →
      (v0Run cfg fsys r msg cache fresh k).2.1 = none) := by
  constructor
  · intro p hsucc
    unfold mainRun at *
    rcases cache with _ | h
    · rcases hc : r.connectR with e | u
      · simp [hc] at hsucc ⊢
      · simp only [hc] at hsucc ⊢
        unfold mainBody mainDispatch at *
        rcases he : r.endR with e | u2 <;>
          simp [he, hop, outcomeOf, resOk] at hsucc ⊢
    · unfold mainBody mainDispatch at *
      rcases he : r.endR with e | u2 <;>
        simp [he, hop, outcomeOf, resOk] at hsucc ⊢
  · intro p hsucc
    unfold v0Run at *
    rcases cache with _ | h
    · rcases hc : r.connectR with e | u
      · simp [hc] at hsucc ⊢
      · simp only [hc] at hsucc ⊢
        unfold v0Body v0Dispatch at *
        rcases hw : r.cwdR with e | d
        · simp [hw] at hsucc ⊢
        · rcases he : r.endR with e | u2 <;>
            simp [hw, he, hop, outcomeOf, resOk] at hsucc ⊢
    · unfold v0Body v0Dispatch at *
      rcases hw : r.cwdR with e | d
      · simp [hw] at hsucc ⊢
      · rcases he : r.endR with e | u2 <;>
          simp [hw, he, hop, outcomeOf, resOk] at hsucc ⊢

/-- Witness for C5: a concrete successful `close` on cached session 7
clears the cache in both variants. -/
theorem c5_witness :
    (mainRun cfgClose fs0 (okRemote "." 5) msgEmpty (some 7) 0 0).2.1 = none ∧
    (v0Run cfgClose fs0 (okRemote "." 5) msgEmpty (some 7) 0 0).2.1 = none :=
  ⟨(c5_successful_close_clears_cache cfgClose fs0 (okRemote "." 5) msgEmpty
      (some 7) 0 0 rfl).1 .closedMsg (by decide),
   (c5_successful_close_clears_cache cfgClose fs0 (okRemote "." 5) msgEmpty
      (some 7) 0 0 rfl).2 .closedObj (by decide)⟩

/-- Counterexample to C5 as stated: when `sftp.end()` rejects, the
`close` request fails and `node.cfg._client = null` (line 117) is never
reached — the cached handle 7 survives the close. -/
theorem c5_counterexample_failing_end_keeps_cache :
    (mainRun cfgClose fs0 remEndFail msgEmpty (some 7) 0 0).2.1 = some 7 ∧
    (mainRun cfgClose fs0 remEndFail msgEmpty (some 7) 0 0).2.2 =
      .failure (.rem 3) := by
  decide

/-- Claim C6 (code bug): the main variant's own header comment restricts
the string-payload path override to list/get/delete/mkdir/rmdir, but
line 103 computes `workdir = payloadPath || msg.workdir || ...` for
every operation: for a `put` with string payload `"hello"` and
`msg.workdir = "/uploads"`, the working directory becomes `"hello"` and
the upload resolves to `hello/a.txt` instead of an `/uploads`-relative
path. -/
theorem c6_put_payload_overrides_workdir :
    mainWorkdir cfgPut msgC3 = "hello" ∧
    msgC3.workdir = some "/uploads" ∧
    (mainRun cfgPut fs0 (okRemote "." 5) msgC3 (some 7) 0 0).2.2 =
      .success (.putOk "hello/a.txt" 5) := by
  decide

/-- Claim C7 (confirmed): when the computed file name starts with `'/'`,
exactly one leading `'/'` is stripped (`slice(1)` — a name starting with
`"//"` keeps its second slash), and the resolved remote path — the
POSIX join in the main variant, the stripped join in the secondary
variant — never begins with a double separator. -/
theorem c7_leading_slash_strip_no_double_separator (w f : String)
    (hf : startsSlash f.data = true) :
    stripLead f = String.mk (f.data.drop 1) ∧
    startsSlash (stripLead f).data = startsDSlash f.data ∧
    startsDSlash (posixJoin w (stripLead f)).data = false ∧
    startsSlash (stripLead (posixJoin w f)).data = false := by
  refine ⟨?_, ?_, ?_, ?_⟩
  · rcases hd : f.data with _ | ⟨c, t⟩
    · rw [hd] at hf
      simp [startsSlash] at hf
    · rw [hd] at hf
      simp only [startsSlash, beq_iff_eq] at hf
      subst hf
      unfold stripLead
      rw [hd]
      rfl
  · exact startsSlash_stripLeadC f.data
  · exact pjoin_no_dslash w.data (stripLeadC f.data)
  · show startsSlash (stripLeadC (pjoin w.data f.data)) = false
    rw [startsSlash_stripLeadC]
    exact pjoin_no_dslash w.data f.data

/-- Witness for C7: the file name `"//x.txt"` against working directory
`"/uploads"`. -/
theorem c7_witness :
    stripLead "//x.txt" = String.mk ("//x.txt".data.drop 1) ∧
    startsSlash (stripLead "//x.txt").data = startsDSlash "//x.txt".data ∧
    startsDSlash (posixJoin "/uploads" (stripLead "//x.txt")).data = false ∧
    startsSlash (stripLead (posixJoin "/uploads" "//x.txt")).data = false :=
  c7_leading_slash_strip_no_double_separator "/uploads" "//x.txt" (by decide)

/-- Claim C8 (amended): a connection-establishment failure is fatal for
the request in both variants — a single connect attempt, no retry, and
no handle left in the cache.  In the main variant the error is reported
through `done(err)`; in the secondary variant the `await sftp.connect`
sits outside the `try` block, so the handler's promise rejects without
firing any completion signal (see the counterexample). -/
theorem c8_connect_failure_fatal (cfg : NodeCfg) (fsys : String → Option Nat)
    (r : Remote) (msg : Msg) (fresh k : Nat) (e : Err)
    (hc : r.connectR = .error e) :
    mainRun cfg fsys r msg none fresh k =
      ([Ev.begin k, Ev.connectCall fresh, Ev.complete k false], none,
        .failure e) ∧
    v0Run cfg fsys r msg none fresh k =
      ([Ev.begin k, Ev.connectCall fresh], none, .crashed e) := by
  constructor
  · unfold mainRun
    simp [hc]
  · unfold v0Run
    simp [hc]

/-- Witness for C8: a concrete rejected connect. -/
theorem c8_witness :
    mainRun cfgList fs0 remConnFail msgEmpty none 5 0 =
      ([Ev.begin 0, Ev.connectCall 5, Ev.complete 0 false], none,
        .failure (.rem 9)) ∧
    v0Run cfgList fs0 remConnFail msgEmpty none 5 0 =
      ([Ev.begin 0, Ev.connectCall 5], none, .crashed (.rem 9)) :=
  c8_connect_failure_fatal cfgList fs0 remConnFail msgEmpty 5 0 (.rem 9) rfl

/-- Counterexample to C8 as stated: in the secondary variant a connect
failure produces no terminal completion signal at all — the trace ends
at the connect attempt with no completion event, and the outcome is an
unhandled promise rejection rather than a reported error. -/
theorem c8_counterexample_v0_no_completion_signal :
    v0Run cfgList fs0 remConnFail msgEmpty none 5 0 =
      ([Ev.begin 0, Ev.connectCall 5], none, .crashed (.rem 9)) ∧
    Ev.complete 0 true ∉ (v0Run cfgList fs0 remConnFail msgEmpty none 5 0).1 ∧
    Ev.complete 0 false ∉ (v0Run cfgList fs0 remConnFail msgEmpty none 5 0).1 := by
  decide

/-- Claim C9 (amended): a `close` arriving with no cached session is not
a no-op in either variant: the node first establishes a brand-new
connection (the connect call is trace position 1, right after begin),
and a connect failure fails the request (via `done(err)` in the main
variant, via a rejected handler promise in the secondary variant).  The
fresh session is then ended — always in the main variant; in the
secondary variant provided the initial `cwd` probe succeeds (a probe
failure leaves the fresh session cached un-ended; see the
counterexample). -/
theorem c9_close_on_empty_cache_connects (cfg : NodeCfg)
    (fsys : String → Option Nat) (r : Remote) (msg : Msg) (fresh k : Nat)
    (hop : cfg.operation = "close") :
    ((mainRun cfg fsys r msg none fresh k).1.get? 1 =
      some (Ev.connectCall fresh)) ∧
    (r.connectR = .ok () →
      Ev.endCall fresh ∈ (mainRun cfg fsys r msg none fresh k).1.drop 2) ∧
    (∀ e, r.connectR = .error e →
      (mainRun cfg fsys r msg none fresh k).2.2 = .failure e) ∧
    ((v0Run cfg fsys r msg none fresh k).1.get? 1 =
      some (Ev.connectCall fresh)) ∧
    (∀ d, r.connectR = .ok () → r.cwdR = .ok d →
      Ev.endCall fresh ∈ (v0Run cfg fsys r msg none fresh k).1) ∧
    (∀ e, r.connectR = .error e →
      (v0Run cfg fsys r msg none fresh k).2.2 = .crashed e) := by
  refine ⟨?_, ?_, ?_, ?_, ?_, ?_⟩
  · unfold mainRun
    rcases hc : r.connectR with e | u <;> simp [hc]
  · intro hc
    unfold mainRun mainBody mainDispatch
    rcases he : r.endR with e | u <;> simp [hc, hop, he]
  · intro e hc
    unfold mainRun
    simp [hc]
  · unfold v0Run
    rcases hc : r.connectR with e | u <;> simp [hc]
  · intro d hc hcwd
    unfold v0Run v0Body v0Dispatch
    rcases he : r.endR with e | u <;> simp [hc, hcwd, hop, he]
  · intro e hc
    unfold v0Run
    simp [hc]

/-- Witness for C9: a concrete `close` on an empty cache with a
reachable host. -/
theorem c9_witness :
    ((mainRun cfgClose fs0 (okRemote "." 5) msgEmpty none 5 0).1.get? 1 =
      some (Ev.connectCall 5)) ∧
    ((okRemote "." 5).connectR = .ok () →
      Ev.endCall 5 ∈ (mainRun cfgClose fs0 (okRemote "." 5) msgEmpty none 5 0).1.drop 2) ∧
    (∀ e, (okRemote "." 5).connectR = .error e →
      (mainRun cfgClose fs0 (okRemote "." 5) msgEmpty none 5 0).2.2 = .failure e) ∧
    ((v0Run cfgClose fs0 (okRemote "." 5) msgEmpty none 5 0).1.get? 1 =
      some (Ev.connectCall 5)) ∧
    (∀ d, (okRemote "." 5).connectR = .ok () → (okRemote "." 5).cwdR = .ok d →
      Ev.endCall 5 ∈ (v0Run cfgClose fs0 (okRemote "." 5) msgEmpty none 5 0).1) ∧
    (∀ e, (okRemote "." 5).connectR = .error e →
      (v0Run cfgClose fs0 (okRemote "." 5) msgEmpty none 5 0).2.2 = .crashed e) :=
  c9_close_on_empty_cache_connects cfgClose fs0 (okRemote "." 5) msgEmpty 5 0 rfl

/-- Counterexample to C9 as stated ("connects and then immediately ends
it"): in the secondary variant, the `cwd` probe sits between the connect
and the `close` dispatch; when the probe fails, the freshly established
session 5 is never ended and stays cached. -/
theorem c9_counterexample_v0_cwd_failure_leaves_session :
    v0Run cfgClose fs0 remCwdFail msgEmpty none 5 0 =
      ([Ev.begin 0, Ev.connectCall 5, Ev.sessionCall 5 "cwd" "",
        Ev.complete 0 false], some 5, .failure (.rem 4)) ∧
    Ev.endCall 5 ∉ (v0Run cfgClose fs0 remCwdFail msgEmpty none 5 0).1 := by
  decide

/-- Claim C10 (confirmed): in the main variant, when a `put`'s expected
size could not be determined (e.g. a stream source) and the post-upload
`stat` fails, the failure is swallowed by the `{size: -1}` fallback and
the operation succeeds with result `{ok: true, path: .., size: -1}`. -/
theorem c10_unknown_size_stat_failure_swallowed (cfg : NodeCfg)
    (fsys : String → Option Nat) (r : Remote) (msg : Msg) (h fresh k : Nat)
    (d : String) (e' : Err) (hop : cfg.operation = "put")
    (hexp : mainExpSize fsys (mainSrcOf msg.payload) = none)
    (hcwd : r.cwdR = .ok d) (hput : r.putR = .ok ())
    (hstat : r.statR = .error e') (hback : r.cwdBackR = .ok ()) :
    (mainRun cfg fsys r msg (some h) fresh k).2.2 =
      .success (.putOk (posixJoin (mainWorkdir cfg msg) (mainPutFile cfg msg))
        (-1)) := by
  unfold mainRun mainBody mainDispatch mainPut
  simp [hop, hexp, hcwd, hput, hstat, hback, outcomeOf]

/-- Witness for C10: a concrete stream upload whose remote stat fails —
the request succeeds with size `-1`. -/
theorem c10_witness :
    (mainRun cfgPut fs0 remStatFail msgStream (some 7) 0 0).2.2 =
      .success (.putOk (posixJoin (mainWorkdir cfgPut msgStream)
        (mainPutFile cfgPut msgStream)) (-1)) :=
  c10_unknown_size_stat_failure_swallowed cfgPut fs0 remStatFail msgStream
    7 0 0 "." (.rem 2) rfl rfl rfl rfl rfl rfl
